import Mathlib

/-!
Verification of the shadow projection engine of `app.py` (Building Shade
Simulator).  The script loads a triangulated mesh with trimesh, rotates it by
three user-chosen axis angles, computes the sun-driven ground shadow of the
rotated mesh, and renders both.  The definitions below are a shallow embedding
of lines 76 to 174 of `app.py`; floating point numbers are modelled as real
numbers and numpy trigonometry as the real trigonometric functions.
-/

namespace ShadeSim

/-- A 3D point, as one row of a trimesh vertex array. -/
abbrev Vec3 : Type := ℝ × ℝ × ℝ

/-- Degree-to-radian conversion, `np.radians(d) = d * pi / 180`. -/
noncomputable def radians (d : ℝ) : ℝ := d * (Real.pi / 180)

/-- A 3x3 matrix, the rotation block of the 4x4 homogeneous matrices built in
`app.py` lines 96 to 109 (their translation part is zero throughout). -/
structure Mat3 where
  m00 : ℝ
  m01 : ℝ
  m02 : ℝ
  m10 : ℝ
  m11 : ℝ
  m12 : ℝ
  m20 : ℝ
  m21 : ℝ
  m22 : ℝ

/-- Matrix product, as numpy matrix multiplication of the rotation blocks. -/
noncomputable def matMul (A B : Mat3) : Mat3 where
  m00 := A.m00 * B.m00 + A.m01 * B.m10 + A.m02 * B.m20
  m01 := A.m00 * B.m01 + A.m01 * B.m11 + A.m02 * B.m21
  m02 := A.m00 * B.m02 + A.m01 * B.m12 + A.m02 * B.m22
  m10 := A.m10 * B.m00 + A.m11 * B.m10 + A.m12 * B.m20
  m11 := A.m10 * B.m01 + A.m11 * B.m11 + A.m12 * B.m21
  m12 := A.m10 * B.m02 + A.m11 * B.m12 + A.m12 * B.m22
  m20 := A.m20 * B.m00 + A.m21 * B.m10 + A.m22 * B.m20
  m21 := A.m20 * B.m01 + A.m21 * B.m11 + A.m22 * B.m21
  m22 := A.m20 * B.m02 + A.m21 * B.m12 + A.m22 * B.m22

/-- Application of a matrix to a point, as `trimesh.Trimesh.apply_transform`
does with each vertex (vertices are treated as column vectors, translation is
zero here). -/
noncomputable def matVec (A : Mat3) (v : Vec3) : Vec3 :=
  (A.m00 * v.1 + A.m01 * v.2.1 + A.m02 * v.2.2,
   A.m10 * v.1 + A.m11 * v.2.1 + A.m12 * v.2.2,
   A.m20 * v.1 + A.m21 * v.2.1 + A.m22 * v.2.2)

/-- The rotation block of `trimesh.transformations.rotation_matrix(angle, d)`:
`R = cos(angle) I + (1 - cos(angle)) d dT + sin(angle) skew(d)`.  The
library first normalises `d`; the call sites in `app.py` (lines 96 to 104) pass
the unit axes `[1,0,0]`, `[0,1,0]`, `[0,0,1]`, on which normalisation is the
identity, so it is omitted here. -/
noncomputable def rotation_matrix (angle : ℝ) (d : Vec3) : Mat3 :=
  let c := Real.cos angle
  let s := Real.sin angle
  { m00 := c + d.1 * d.1 * (1 - c)
    m01 := d.1 * d.2.1 * (1 - c) - d.2.2 * s
    m02 := d.1 * d.2.2 * (1 - c) + d.2.1 * s
    m10 := d.2.1 * d.1 * (1 - c) + d.2.2 * s
    m11 := c + d.2.1 * d.2.1 * (1 - c)
    m12 := d.2.1 * d.2.2 * (1 - c) - d.1 * s
    m20 := d.2.2 * d.1 * (1 - c) - d.2.1 * s
    m21 := d.2.2 * d.2.1 * (1 - c) + d.1 * s
    m22 := c + d.2.2 * d.2.2 * (1 - c) }

/-- Line 96: `rotation_matrix_x = rotation_matrix(radians(rotation_x), [1,0,0])`. -/
noncomputable def rotation_matrix_x (deg : ℝ) : Mat3 :=
  rotation_matrix (radians deg) (1, 0, 0)

/-- Line 99: `rotation_matrix_y = rotation_matrix(radians(rotation_y), [0,1,0])`. -/
noncomputable def rotation_matrix_y (deg : ℝ) : Mat3 :=
  rotation_matrix (radians deg) (0, 1, 0)

/-- Line 102: `rotation_matrix_z = rotation_matrix(radians(rotation_z), [0,0,1])`. -/
noncomputable def rotation_matrix_z (deg : ℝ) : Mat3 :=
  rotation_matrix (radians deg) (0, 0, 1)

/-- `trimesh.transformations.concatenate_matrices(A, B, C) = A @ B @ C`. -/
noncomputable def concatenate_matrices (A B C : Mat3) : Mat3 :=
  matMul (matMul A B) C

/-- Lines 107 to 109: the combined rotation matrix
`concatenate_matrices(rotation_matrix_x, rotation_matrix_y, rotation_matrix_z)`
for the three slider angles in degrees. -/
noncomputable def combined_rotation_matrix (ax ay az : ℝ) : Mat3 :=
  concatenate_matrices (rotation_matrix_x ax) (rotation_matrix_y ay)
    (rotation_matrix_z az)

/-- The image of one vertex under line 110, `mesh.apply_transform(R)` with
`R = combined_rotation_matrix`. -/
noncomputable def rotatedVertex (ax ay az : ℝ) (v : Vec3) : Vec3 :=
  matVec (combined_rotation_matrix ax ay az) v

/-- Rotated vertex as the property of claim C5 words it: first the X rotation,
then the Y rotation, then the Z rotation applied to the vertex. -/
noncomputable def specOrderRotatedVertex (ax ay az : ℝ) (v : Vec3) : Vec3 :=
  matVec (rotation_matrix_z az) (matVec (rotation_matrix_y ay)
    (matVec (rotation_matrix_x ax) v))

/-- A loaded trimesh object: its vertex array and its triangle (face) array. -/
structure TrimeshObj where
  vertices : List Vec3
  faces : List (Nat × Nat × Nat)

/-- The value of the mesh object after line 110: `apply_transform` replaces
every vertex by its image under the matrix and keeps the faces. -/
noncomputable def apply_transform (M : Mat3) (m : TrimeshObj) : TrimeshObj :=
  { vertices := m.vertices.map (matVec M), faces := m.faces }

/-- What `trimesh.load` can hand back, as the `isinstance` chain of lines
80 to 87 distinguishes it: a scene (named collection of meshes), a single
mesh, or anything else. -/
inductive LoadResult where
  | scene (geoms : List TrimeshObj)
  | single (m : TrimeshObj)
  | other

/-- The two `ValueError`s raised by lines 82 and 87. -/
inductive LoadError where
  | noGeometry
  | unsupportedFormat
deriving DecidableEq

/-- The message of each raised `ValueError`. -/
def errMsg : LoadError → String
  | .noGeometry => "The 3D model contains no geometry."
  | .unsupportedFormat => "Unsupported 3D model format."

/-- Lines 80 to 87: a scene with zero geometries raises, otherwise the first
mesh of the scene is taken; a single mesh is used as is; any other type
raises. -/
def extractMesh : LoadResult → Except LoadError TrimeshObj
  | .scene [] => .error .noGeometry
  | .scene (g :: _) => .ok g
  | .single m => .ok m
  | .other => .error .unsupportedFormat

/-- Line 118: `shadow_length = 10 / np.tan(np.radians(solar_altitude))`. -/
noncomputable def shadow_length (alt : ℝ) : ℝ := 10 / Real.tan (radians alt)

/-- Line 121: `shadow_direction = solar_azimuth + 180 if solar_azimuth < 180
else solar_azimuth - 180`. -/
noncomputable def shadow_direction (az : ℝ) : ℝ :=
  if az < 180 then az + 180 else az - 180

/-- Line 122: `shadow_dx = shadow_length * np.sin(np.radians(shadow_direction))`. -/
noncomputable def shadow_dx (alt az : ℝ) : ℝ :=
  shadow_length alt * Real.sin (radians (shadow_direction az))

/-- Line 123: `shadow_dy = shadow_length * np.cos(np.radians(shadow_direction))`. -/
noncomputable def shadow_dy (alt az : ℝ) : ℝ :=
  shadow_length alt * Real.cos (radians (shadow_direction az))

/-- Lines 126 to 129, as a value: copy the vertex array, add `shadow_dx` to
column 0, add `shadow_dy` to column 1, set column 2 to zero. -/
noncomputable def shadow_vertices (alt az : ℝ) (vs : List Vec3) : List Vec3 :=
  let s1 := vs.map (fun v => (v.1 + shadow_dx alt az, v.2.1, v.2.2))
  let s2 := s1.map (fun v => (v.1, v.2.1 + shadow_dy alt az, v.2.2))
  s2.map (fun v => (v.1, v.2.1, (0 : ℝ)))

/-- Result of the shadow projector: either projected vertices or the
`NoShadow` sentinel (the `else` branch of line 170). -/
inductive ProjResult where
  | proj (vs : List Vec3)
  | noShadow

/-- The projector contract of the spec over lines 117 to 171: shadow vertices
when the solar altitude is positive, `NoShadow` otherwise. -/
noncomputable def project (alt az : ℝ) (vs : List Vec3) : ProjResult :=
  if alt > 0 then .proj (shadow_vertices alt az vs) else .noShadow

/-- One `go.Mesh3d` trace: the vertex array and the face array handed to the
renderer (lines 135 to 158). -/
structure Trace where
  verts : List Vec3
  faces : List (Nat × Nat × Nat)

/-- Observable outcome of the `try` block, lines 76 to 174: a figure with a
building trace and a shadow trace, the below-horizon warning of line 171, or
the `st.error` report of line 174. -/
inductive RenderOutcome where
  | rendered (building shadow : Trace)
  | belowHorizonWarning
  | loadError (msg : String)

/-- Lines 76 to 174 end to end: extract the mesh (or report the load error
with its cause), rotate it, and either render building and shadow traces
sharing one face array, or warn that the sun is below the horizon. -/
noncomputable def runApp (alt az : ℝ) (angles : ℝ × ℝ × ℝ)
    (lr : LoadResult) : RenderOutcome :=
  match extractMesh lr with
  | .error e => .loadError ("Error loading 3D model: " ++ errMsg e)
  | .ok mesh0 =>
    let mesh := apply_transform
      (combined_rotation_matrix angles.1 angles.2.1 angles.2.2) mesh0
    match project alt az mesh.vertices with
    | .proj sv => .rendered ⟨mesh.vertices, mesh.faces⟩ ⟨sv, mesh.faces⟩
    | .noShadow => .belowHorizonWarning

/-- Shadow length as the spec writes it in step 2 of the algorithm:
`reference_height / tan(radians(solar_altitude_deg))`. -/
noncomputable def spec_shadow_length (reference_height alt : ℝ) : ℝ :=
  reference_height / Real.tan (radians alt)

/-- Real modulus into `[0, 360)` as the spec writes `(azimuth + 180) mod 360`. -/
noncomputable def mod360 (x : ℝ) : ℝ := x - 360 * (⌊x / 360⌋ : ℤ)

/-- A store of numpy arrays of vertices, addressed by reference.  It models
the aliasing facts the frame claims are about: `copy` allocates a fresh
reference, in-place column operations write through one reference. -/
structure ArrStore where
  arrs : List (List Vec3)

/-- Dereference (an absent reference reads as the empty array). -/
def ArrStore.read (s : ArrStore) (r : Nat) : List Vec3 := s.arrs.getD r []

/-- Overwrite the array behind a reference. -/
def ArrStore.write (s : ArrStore) (r : Nat) (a : List Vec3) : ArrStore :=
  ⟨s.arrs.set r a⟩

/-- `a.copy()`: allocate a fresh reference holding the same contents. -/
def ArrStore.allocCopy (s : ArrStore) (r : Nat) : ArrStore × Nat :=
  (⟨s.arrs ++ [s.read r]⟩, s.arrs.length)

/-- Line 110 at the storage level: `mesh.apply_transform(R)` rewrites the
vertex array behind the mesh's own reference. -/
noncomputable def apply_transform_step (M : Mat3) (s : ArrStore) (mref : Nat) :
    ArrStore :=
  s.write mref ((s.read mref).map (matVec M))

/-- Lines 126 to 129 at the storage level: `shadow_vertices =
vertices.copy()`, then the three in-place column updates, all through the
fresh reference returned by `copy`. -/
noncomputable def shadow_vertices_steps (dx dy : ℝ) (s : ArrStore)
    (vref : Nat) : ArrStore × Nat :=
  let p := s.allocCopy vref
  let s2 := p.1.write p.2 ((p.1.read p.2).map (fun v => (v.1 + dx, v.2.1, v.2.2)))
  let s3 := s2.write p.2 ((s2.read p.2).map (fun v => (v.1, v.2.1 + dy, v.2.2)))
  let s4 := s3.write p.2 ((s3.read p.2).map (fun v => (v.1, v.2.1, (0 : ℝ))))
  (s4, p.2)

/-! Helper lemmas. -/

lemma radians_zero : radians 0 = 0 := by
  simp [radians]

lemma radians_ninety : radians 90 = Real.pi / 2 := by
  unfold radians; ring

lemma radians_pos {a : ℝ} (h : 0 < a) : 0 < radians a := by
  unfold radians
  positivity

lemma radians_lt_radians {a b : ℝ} (h : a < b) : radians a < radians b := by
  unfold radians
  have hpi : (0 : ℝ) < Real.pi / 180 := by positivity
  exact mul_lt_mul_of_pos_right h hpi

lemma radians_lt_pi_div_two {a : ℝ} (h : a < 90) : radians a < Real.pi / 2 := by
  have := radians_lt_radians h
  rwa [radians_ninety] at this

lemma getD_set_ne {α : Type} (l : List α) {i j : ℕ} (a d : α) (h : i ≠ j) :
    (l.set i a).getD j d = l.getD j d := by
  simp [List.getD_eq_getElem?_getD, List.getElem?_set_ne h]

lemma getD_append_lt {α : Type} (l : List α) (x : α) {j : ℕ} (d : α)
    (h : j < l.length) : (l ++ [x]).getD j d = l.getD j d := by
  simp [List.getD_eq_getElem?_getD, List.getElem?_append_left h]

lemma shadow_vertices_eq_map (alt az : ℝ) (vs : List Vec3) :
    shadow_vertices alt az vs =
      vs.map (fun v => (v.1 + shadow_dx alt az, v.2.1 + shadow_dy alt az, (0 : ℝ))) := by
  simp [shadow_vertices, List.map_map]

/-! Claims. -/

/-- Claim C1: for every solar altitude at or below zero degrees, and any
azimuth and any model, the projector yields the `NoShadow` sentinel: no
shadow geometry is computed, and the app surfaces the below-horizon warning
instead of rendering a shadow. -/
theorem horizon_noShadow (alt az : ℝ) (vs : List Vec3) (angles : ℝ × ℝ × ℝ)
    (lr : LoadResult) (mesh : TrimeshObj)
    (h : alt ≤ 0) (hlr : extractMesh lr = .ok mesh) :
    project alt az vs = .noShadow ∧
      runApp alt az angles lr = .belowHorizonWarning := by
  have hnot : ¬ alt > 0 := not_lt.mpr h
  constructor
  · simp [project, hnot]
  · simp [runApp, hlr, project, hnot]

theorem horizon_noShadow_witness :
    (-10 : ℝ) ≤ 0 ∧
      (project (-10) 90 [((1 : ℝ), 2, 3)] = .noShadow ∧
        runApp (-10) 90 (0, 0, 0)
          (.single ⟨[((1 : ℝ), 2, 3)], [(0, 1, 2)]⟩) = .belowHorizonWarning) :=
  ⟨by norm_num,
    horizon_noShadow (-10) 90 [((1 : ℝ), 2, 3)] (0, 0, 0)
      (.single ⟨[((1 : ℝ), 2, 3)], [(0, 1, 2)]⟩) ⟨[((1 : ℝ), 2, 3)], [(0, 1, 2)]⟩
      (by norm_num) rfl⟩

/-- Claim C2: for every azimuth in `[0, 360)`, the two-branch direction
formula of line 121 agrees exactly with `(azimuth + 180) mod 360`. -/
theorem direction_eq_mod360 (az : ℝ) (h0 : 0 ≤ az) (h1 : az < 360) :
    shadow_direction az = mod360 (az + 180) := by
  unfold shadow_direction mod360
  by_cases h : az < 180
  · have hfl : (⌊(az + 180) / 360⌋ : ℤ) = 0 := by
      rw [Int.floor_eq_iff]
      constructor
      · push_cast
        positivity
      · rw [div_lt_iff (by norm_num : (0 : ℝ) < 360)]
        push_cast
        linarith
    rw [if_pos h, hfl]
    push_cast
    ring
  · push_neg at h
    have hfl : (⌊(az + 180) / 360⌋ : ℤ) = 1 := by
      rw [Int.floor_eq_iff]
      constructor
      · rw [le_div_iff (by norm_num : (0 : ℝ) < 360)]
        push_cast
        linarith
      · rw [div_lt_iff (by norm_num : (0 : ℝ) < 360)]
        push_cast
        linarith
    rw [if_neg (not_lt.mpr h), hfl]
    push_cast
    ring

theorem direction_eq_mod360_witness :
    ((0 : ℝ) ≤ 270 ∧ (270 : ℝ) < 360) ∧
      shadow_direction 270 = mod360 (270 + 180) :=
  ⟨⟨by norm_num, by norm_num⟩, direction_eq_mod360 270 (by norm_num) (by norm_num)⟩

/-- Claim C3: for altitudes in `(0, 90]` and azimuths in `[0, 360)`, the
computed offset matches the spec's reference formulas with the mesh model's
fixed visualization reference height 10: `shadow_length =
reference_height / tan(radians(altitude))`, `dx = shadow_length *
sin(radians(direction))`, `dy = shadow_length * cos(radians(direction))`. -/
theorem offset_matches_spec_formulas (alt az : ℝ)
    (h1 : 0 < alt) (h2 : alt ≤ 90) (h3 : 0 ≤ az) (h4 : az < 360) :
    shadow_length alt = spec_shadow_length 10 alt ∧
      shadow_dx alt az =
        spec_shadow_length 10 alt * Real.sin (radians (shadow_direction az)) ∧
      shadow_dy alt az =
        spec_shadow_length 10 alt * Real.cos (radians (shadow_direction az)) :=
  ⟨rfl, rfl, rfl⟩

theorem offset_matches_spec_formulas_witness :
    ((0 : ℝ) < 45 ∧ (45 : ℝ) ≤ 90 ∧ (0 : ℝ) ≤ 135 ∧ (135 : ℝ) < 360) ∧
      (shadow_length 45 = spec_shadow_length 10 45 ∧
        shadow_dx 45 135 =
          spec_shadow_length 10 45 * Real.sin (radians (shadow_direction 135)) ∧
        shadow_dy 45 135 =
          spec_shadow_length 10 45 * Real.cos (radians (shadow_direction 135))) :=
  ⟨⟨by norm_num, by norm_num, by norm_num, by norm_num⟩,
    offset_matches_spec_formulas 45 135 (by norm_num) (by norm_num) (by norm_num)
      (by norm_num)⟩

/-- Claim C7: for a fixed reference height, the shadow length of line 118 is
strictly decreasing in the solar altitude on `(0, 90)`. -/
theorem shadow_length_strict_anti (a1 a2 : ℝ)
    (h1 : 0 < a1) (h2 : a1 < a2) (h3 : a2 < 90) :
    shadow_length a2 < shadow_length a1 := by
  unfold shadow_length
  have hr1pos : 0 < radians a1 := radians_pos h1
  have hr2lt : radians a2 < Real.pi / 2 := radians_lt_pi_div_two h3
  have hr1lt : radians a1 < Real.pi / 2 :=
    (radians_lt_radians h2).trans hr2lt
  have htanpos : 0 < Real.tan (radians a1) :=
    Real.tan_pos_of_pos_of_lt_pi_div_two hr1pos hr1lt
  have htanlt : Real.tan (radians a1) < Real.tan (radians a2) := by
    refine Real.tan_lt_tan_of_lt_of_lt_pi_div_two ?_ hr2lt (radians_lt_radians h2)
    have hpi : (0 : ℝ) < Real.pi / 2 := by positivity
    linarith
  exact div_lt_div_of_pos_left (by norm_num) htanpos htanlt

theorem shadow_length_strict_anti_witness :
    ((0 : ℝ) < 30 ∧ (30 : ℝ) < 60 ∧ (60 : ℝ) < 90) ∧
      shadow_length 60 < shadow_length 30 :=
  ⟨⟨by norm_num, by norm_num, by norm_num⟩,
    shadow_length_strict_anti 30 60 (by norm_num) (by norm_num) (by norm_num)⟩

/-- Claim C8: a scene with zero geometries makes the mesh extraction fail
with the no-geometry error, and the app reports it with the underlying
cause and issues no shadow projection (the outcome is the load-error
report, not a rendered figure). -/
theorem empty_scene_noGeometry :
    extractMesh (.scene []) = .error .noGeometry ∧
      ∀ (alt az : ℝ) (angles : ℝ × ℝ × ℝ),
        runApp alt az angles (.scene []) =
          .loadError ("Error loading 3D model: The 3D model contains no geometry.") := by
  constructor
  · rfl
  · intro alt az angles
    rfl

lemma matVec_combined_zero (v : Vec3) :
    matVec (combined_rotation_matrix 0 0 0) v = v := by
  obtain ⟨x, y, z⟩ := v
  simp only [combined_rotation_matrix, concatenate_matrices, rotation_matrix_x,
    rotation_matrix_y, rotation_matrix_z, rotation_matrix, matMul, matVec,
    radians_zero, Real.cos_zero, Real.sin_zero, Prod.mk.injEq]
  refine ⟨by ring, by ring, by ring⟩

/-- Claim C9: rotating a mesh by angles `(0, 0, 0)` degrees leaves every
vertex unchanged: the combined rotation applied on line 110 is the identity
transform on the vertex array. -/
theorem zero_rotation_identity (m : TrimeshObj) :
    apply_transform (combined_rotation_matrix 0 0 0) m = m := by
  cases m with
  | mk vs fs =>
    simp only [apply_transform, TrimeshObj.mk.injEq, and_true]
    have h : matVec (combined_rotation_matrix 0 0 0) = fun v : Vec3 => v :=
      funext matVec_combined_zero
    rw [h]
    simp

/-- Claim C5 counterexample: with a 90 degree X angle and a 90 degree Z
angle, the code's rotated vertex differs from the vertex rotated by X first,
then Y, then Z as the claim words it: the code maps `(1,0,0)` to `(0,0,1)`
while the claimed order maps it to `(0,1,0)`. -/
theorem rotation_order_claim_cex :
    rotatedVertex 90 0 90 ((1 : ℝ), 0, 0) ≠
      specOrderRotatedVertex 90 0 90 ((1 : ℝ), 0, 0) := by
  have h1 : rotatedVertex 90 0 90 ((1 : ℝ), 0, 0) = ((0 : ℝ), 0, 1) := by
    simp only [rotatedVertex, combined_rotation_matrix, concatenate_matrices,
      rotation_matrix_x, rotation_matrix_y, rotation_matrix_z, rotation_matrix,
      matMul, matVec, radians_ninety, radians_zero, Real.cos_pi_div_two,
      Real.sin_pi_div_two, Real.cos_zero, Real.sin_zero, Prod.mk.injEq]
    norm_num
  have h2 : specOrderRotatedVertex 90 0 90 ((1 : ℝ), 0, 0) = ((0 : ℝ), 1, 0) := by
    simp only [specOrderRotatedVertex, rotation_matrix_x, rotation_matrix_y,
      rotation_matrix_z, rotation_matrix, matVec, radians_ninety, radians_zero,
      Real.cos_pi_div_two, Real.sin_pi_div_two, Real.cos_zero, Real.sin_zero,
      Prod.mk.injEq]
    norm_num
  rw [h1, h2]
  norm_num [Prod.ext_iff]

/-- Claim C5 amended: the combined matrix of lines 107 to 110 is
`Rx @ Ry @ Rz` applied to column vectors, so each vertex is rotated about Z
first, then Y, then X: the rotated vertex is `Rx(ax)` applied to `Ry(ay)`
applied to `Rz(az)` applied to the vertex. -/
theorem rotation_order_corrected (ax ay az : ℝ) (v : Vec3) :
    rotatedVertex ax ay az v =
      matVec (rotation_matrix_x ax) (matVec (rotation_matrix_y ay)
        (matVec (rotation_matrix_z az) v)) := by
  obtain ⟨x, y, z⟩ := v
  simp only [rotatedVertex, combined_rotation_matrix, concatenate_matrices,
    rotation_matrix_x, rotation_matrix_y, rotation_matrix_z, rotation_matrix,
    matMul, matVec, Prod.mk.injEq]
  refine ⟨by ring, by ring, by ring⟩

/-- Claim C4: for every mesh and every solar position with positive
altitude, the app renders a building trace and a shadow trace that share one
face array (the mesh's own), the shadow has as many vertices as the rotated
model, and every shadow vertex is the model vertex displaced by the single
offset `(shadow_dx, shadow_dy)` with its z coordinate forced to zero. -/
theorem mesh_projection_structure (alt az : ℝ) (angles : ℝ × ℝ × ℝ)
    (lr : LoadResult) (mesh : TrimeshObj)
    (hlr : extractMesh lr = .ok mesh) (halt : 0 < alt) :
    ∃ b s : Trace,
      runApp alt az angles lr = .rendered b s ∧
      s.faces = b.faces ∧ b.faces = mesh.faces ∧
      s.verts.length = b.verts.length ∧
      s.verts = b.verts.map
        (fun v => (v.1 + shadow_dx alt az, v.2.1 + shadow_dy alt az, (0 : ℝ))) := by
  refine ⟨⟨mesh.vertices.map
      (matVec (combined_rotation_matrix angles.1 angles.2.1 angles.2.2)),
      mesh.faces⟩,
    ⟨shadow_vertices alt az (mesh.vertices.map
      (matVec (combined_rotation_matrix angles.1 angles.2.1 angles.2.2))),
      mesh.faces⟩, ?_, rfl, rfl, ?_, ?_⟩
  · simp [runApp, hlr, project, halt, apply_transform]
  · rw [shadow_vertices_eq_map]
    simp
  · exact shadow_vertices_eq_map alt az _

theorem mesh_projection_structure_witness :
    (extractMesh (.single ⟨[((1 : ℝ), 2, 3)], [(0, 1, 2)]⟩) =
        .ok ⟨[((1 : ℝ), 2, 3)], [(0, 1, 2)]⟩ ∧ (0 : ℝ) < 45) ∧
      (∃ b s : Trace,
        runApp 45 135 (0, 0, 0)
            (.single ⟨[((1 : ℝ), 2, 3)], [(0, 1, 2)]⟩) = .rendered b s ∧
        s.faces = b.faces ∧ b.faces = [(0, 1, 2)] ∧
        s.verts.length = b.verts.length ∧
        s.verts = b.verts.map
          (fun v => (v.1 + shadow_dx 45 135, v.2.1 + shadow_dy 45 135, (0 : ℝ)))) :=
  ⟨⟨rfl, by norm_num⟩,
    mesh_projection_structure 45 135 (0, 0, 0)
      (.single ⟨[((1 : ℝ), 2, 3)], [(0, 1, 2)]⟩) ⟨[((1 : ℝ), 2, 3)], [(0, 1, 2)]⟩
      rfl (by norm_num)⟩

/-- Claim C10: the shadow computation of lines 126 to 129 never modifies the
array it projects: it writes only through the fresh reference returned by
`vertices.copy()`, so the model's vertex array reads back unchanged and the
shadow array is a separate reference. -/
theorem projection_preserves_model_array (dx dy : ℝ) (s : ArrStore)
    (vref : ℕ) (h : vref < s.arrs.length) :
    ((shadow_vertices_steps dx dy s vref).1).read vref = s.read vref ∧
      (shadow_vertices_steps dx dy s vref).2 ≠ vref := by
  have hne : s.arrs.length ≠ vref := ne_of_gt h
  constructor
  · simp only [shadow_vertices_steps, ArrStore.allocCopy, ArrStore.write,
      ArrStore.read]
    rw [getD_set_ne _ _ _ hne, getD_set_ne _ _ _ hne, getD_set_ne _ _ _ hne,
      getD_append_lt _ _ _ h]
  · simp only [shadow_vertices_steps, ArrStore.allocCopy]
    exact hne

theorem projection_preserves_model_array_witness :
    0 < (ArrStore.mk [[((1 : ℝ), 2, 3)]]).arrs.length ∧
      (((shadow_vertices_steps 5 7 ⟨[[((1 : ℝ), 2, 3)]]⟩ 0).1).read 0 =
          (ArrStore.mk [[((1 : ℝ), 2, 3)]]).read 0 ∧
        (shadow_vertices_steps 5 7 ⟨[[((1 : ℝ), 2, 3)]]⟩ 0).2 ≠ 0) :=
  ⟨by simp, projection_preserves_model_array 5 7 ⟨[[((1 : ℝ), 2, 3)]]⟩ 0 (by simp)⟩

/-- Claim C6 evaluation: line 110, `mesh.apply_transform(R)`, overwrites the
vertex array behind the loaded mesh's own reference.  With rotation angles
`(90, 0, 0)` and loaded vertex array `[(0, 1, 0)]`, the array behind the
mesh's reference reads back as `[(0, 0, 1)]` afterwards, not as the loaded
values: the loaded mesh is mutated in place, no unrotated copy remains. -/
theorem apply_transform_overwrites_loaded_array :
    (apply_transform_step (combined_rotation_matrix 90 0 0)
        ⟨[[((0 : ℝ), 1, 0)]]⟩ 0).read 0 = [((0 : ℝ), 0, 1)] ∧
      (apply_transform_step (combined_rotation_matrix 90 0 0)
          ⟨[[((0 : ℝ), 1, 0)]]⟩ 0).read 0 ≠
        (ArrStore.mk [[((0 : ℝ), 1, 0)]]).read 0 := by
  have hv : matVec (combined_rotation_matrix 90 0 0) ((0 : ℝ), 1, 0) =
      ((0 : ℝ), 0, 1) := by
    simp only [combined_rotation_matrix, concatenate_matrices, rotation_matrix_x,
      rotation_matrix_y, rotation_matrix_z, rotation_matrix, matMul, matVec,
      radians_ninety, radians_zero, Real.cos_pi_div_two, Real.sin_pi_div_two,
      Real.cos_zero, Real.sin_zero, Prod.mk.injEq]
    norm_num
  constructor
  · simp [apply_transform_step, ArrStore.write, ArrStore.read, hv]
  · simp [apply_transform_step, ArrStore.write, ArrStore.read, hv, Prod.ext_iff]

end ShadeSim
